import Mathlib

set_option maxRecDepth 8000

/-!
Verification of the liveness/health subsystem and the reconciliation loop of
`token_checker.py` (class `GristWatchdog`, class `HealthCheckHandler`,
functions `find_none_value` and `main`).

The Python source is shallowly embedded: the watchdog tick and reset become
pure functions on an integer countdown plus a health flag; the main loop body
becomes an explicit state-passing function over a wallet store, with every
fallible Python statement (Grist fetches, the balance lookup, the write-backs)
driven by an `IterEnv` record describing which of them raises in a given pass,
and the two nested `try/except Exception` blocks mirrored by explicit
`Except`-plumbing.  Watchdog ticks that fire while the remote lookup is in
flight (the only unboundedly blocking call the loop makes while health is
marked busy) are folded in at the lookup point via `applyTicks`.
-/

namespace TokenChecker

/-! ### Watchdog (`GristWatchdog`) -/

/-- Reset value of the countdown: `self._timeout = 300` (5 minutes), used both
by `__init__`/`reset_timeout` and as the initial value. -/
def resetValue : Int := 300

/-- One decrement of the countdown: `self._timeout = max(0, self._timeout - 10)`
in `decrease_timeout_thread`. -/
def tickTimeoutVal (t : Int) : Int := max 0 (t - 10)

/-- Observable result of one iteration of the `decrease_timeout_thread` loop
body: the new countdown, the shared `HealthCheckHandler.is_healthy` flag after
the `if self._timeout < 60` branch, whether `send_telegram_notification()` was
invoked and whether `sys.exit(1)` was executed (both happen under
`if self._timeout < 1`). -/
structure TickOut where
  timeout : Int
  health : Bool
  notifyAttempted : Bool
  exitCalled : Bool
deriving DecidableEq

/-- The body of one pass of `decrease_timeout_thread` (lines 90-99 of
`token_checker.py`), given the current countdown and health flag. -/
def decreaseTick (t : Int) (h : Bool) : TickOut :=
  let t2 := tickTimeoutVal t
  let h2 := if t2 < 60 then false else h
  if t2 < 1 then ⟨t2, h2, true, true⟩ else ⟨t2, h2, false, false⟩

/-- Events hitting the watchdog state: a tick of the background thread, or a
`reset_timeout()` call from the main loop. -/
inductive WdEvent
  | tick
  | reset
deriving DecidableEq

/-- The countdown value alone under a watchdog event (`reset_timeout` writes
300; a tick applies `max(0, t - 10)`). -/
def timeoutStep (t : Int) : WdEvent → Int
  | .tick => tickTimeoutVal t
  | .reset => resetValue

/-- Countdown after a sequence of ticks and resets. -/
def timeoutRun (t : Int) (es : List WdEvent) : Int := es.foldl timeoutStep t

/-- State of the watchdog thread itself: countdown, shared health flag,
whether the thread is still alive, and how many times the notification and the
`sys.exit(1)` call have executed.  `sys.exit` raises `SystemExit`, which in a
non-main thread only ends that thread, so `alive` becomes `false` and no
further ticks happen; `reset_timeout()` keeps working from the main thread. -/
structure WdThreadState where
  timeout : Int
  health : Bool
  alive : Bool
  notifyCalls : Nat
  exitCalls : Nat
deriving DecidableEq

/-- One watchdog event applied to the thread state.  A tick runs the loop body
only while the thread is alive; on expiry the notification is attempted once
and `sys.exit(1)` executes, ending the thread. -/
def wdStep (s : WdThreadState) : WdEvent → WdThreadState
  | .reset => { s with timeout := resetValue }
  | .tick =>
    if s.alive then
      let o := decreaseTick s.timeout s.health
      if o.exitCalled then
        { timeout := o.timeout, health := o.health, alive := false,
          notifyCalls := s.notifyCalls + 1, exitCalls := s.exitCalls + 1 }
      else
        { s with timeout := o.timeout, health := o.health }
    else s

/-- Watchdog thread state after a sequence of events. -/
def wdRun (s : WdThreadState) (es : List WdEvent) : WdThreadState := es.foldl wdStep s

/-- Watchdog state right after `GristWatchdog.__init__`: countdown 300, health
flag still `True`, thread alive, nothing fired yet. -/
def wdInit : WdThreadState := ⟨300, true, true, 0, 0⟩

/-! ### Health endpoint (`HealthCheckHandler.do_GET`) -/

/-- An HTTP response of the health server: status code and body as written by
`do_GET` (a 404 sends headers only, so its body is empty). -/
structure HttpResponse where
  status : Nat
  body : String
deriving DecidableEq

/-- Body written for the healthy case: `json.dumps({"status": "healthy"})`. -/
def healthyBody : String := "\x7b\"status\": \"healthy\"\x7d"

/-- Body written for the unhealthy case:
`json.dumps({"status": "unhealthy", "reason": "Request in progress taking too long"})` —
the single hard-coded reason string in `HealthCheckHandler.do_GET`. -/
def unhealthyBody : String :=
  "\x7b\"status\": \"unhealthy\", \"reason\": \"Request in progress taking too long\"\x7d"

/-- The `/health` request path. -/
def healthPath : String := "/health"

/-- Embedding of `HealthCheckHandler.do_GET`, as a function of the request path and the
shared `is_healthy` class flag. -/
def do_GET (path : String) (is_healthy : Bool) : HttpResponse :=
  if path = healthPath then
    if is_healthy then ⟨200, healthyBody⟩
    else ⟨503, unhealthyBody⟩
  else ⟨404, ""⟩

/-! ### Wallet store and the reconciliation loop (`find_none_value`, `main`) -/

/-- A Grist cell value as the loop observes it: Python `None`, a string, or a
number (the balance lookup writes ints/floats; `0 == ""` and `0 is None` are
both false in Python, which `isUnset` mirrors). -/
inductive GVal
  | none
  | str (s : String)
  | num (n : Int)
deriving DecidableEq

/-- The selection test applied to a cell in `find_none_value`:
`x is None or x == ""`. -/
def isUnset : GVal → Bool
  | .none => true
  | .str s => s == ""
  | .num _ => false

/-- A row of the Wallets table with the fields the loop touches. -/
structure Wallet where
  id : Nat
  Address : GVal
  Value : GVal
  Comment : GVal
deriving DecidableEq

/-- The predicate of `find_none_value`: `Value` unset and `Address` set
(`wallet.Address is not None and wallet.Address != ""`). -/
def pendingPred (w : Wallet) : Bool := isUnset w.Value && !isUnset w.Address

/-- Embedding of `find_none_value(grist)`: scan the fetched table in order and return the
first wallet with unset `Value` and set `Address`, else `None`. -/
def find_none_value (ws : List Wallet) : Option Wallet := ws.find? pendingPred

/-- Embedding of `grist.update(row_id, {"Value": v, "Comment": c})`: rewrite the `Value`
and `Comment` fields of the row(s) with the given id. -/
def updateWallet (ws : List Wallet) (rid : Nat) (v c : GVal) : List Wallet :=
  ws.map fun w => if w.id = rid then { w with Value := v, Comment := c } else w

/-- Outcome of `check_balance`: a `(value, msg)` pair returned normally, or an
exception with a description. -/
inductive LookupResult
  | ok (value : GVal) (msg : String)
  | err (desc : String)
deriving DecidableEq

/-- The Python binding of the local variable `none_value_wallet` in `main`.
It survives across loop iterations: it is unbound until the first completed
`find_none_value` call, and afterwards holds that call's result (possibly
`None`) until the next completed call. -/
inductive Binding
  | unbound
  | boundNone
  | boundTo (w : Wallet)
deriving DecidableEq

/-- Exceptions the loop body can see: an ordinary `Exception` with a message,
the `NameError` from reading the unbound `none_value_wallet`, and the
`AttributeError` from `None.id`.  All are subclasses of `Exception`, so both
`except Exception` handlers catch any of them. -/
inductive PyExc
  | exc (msg : String)
  | nameError
  | attrError
deriving DecidableEq

/-- The `str(e)` inserted into `f"Error: {e}"` by the failure handler. -/
def excDesc : PyExc → String
  | .exc m => m
  | .nameError => "name none_value_wallet is not defined"
  | .attrError => "NoneType object has no attribute id"

/-- Environment of one pass of the `while True` loop: which fallible calls
raise (and with what message), the lookup outcome, and how many watchdog ticks
fire while the remote lookup is in flight. -/
structure IterEnv where
  settingsErr : Option String
  fetchErr : Option String
  ticksDuringLookup : Nat
  lookup : LookupResult
  writeErr : Option String
  errWriteErr : Option String
deriving DecidableEq

/-- State threaded through the loop: the Wallets table, the shared health
flag, the watchdog countdown, and the `none_value_wallet` binding. -/
structure MState where
  store : List Wallet
  health : Bool
  wd : Int
  binding : Binding
deriving DecidableEq

/-- Observable events of one pass, in program order. -/
inductive Ev
  | reset
  | settings
  | select
  | busyOn
  | lookupEv
  | busyOff
  | writeEv
  | errWriteEv
  | logErr
  | sleepEv
deriving DecidableEq

/-- How a pass ends: slept 10s because no wallet was pending, completed a
success write, ran the failure handler to completion (no sleep), or was caught
by the outer handler and slept 10s. -/
inductive IterOutcome
  | sleptNoWork
  | completed
  | failureHandled
  | sleptError
deriving DecidableEq

/-- Fold `n` watchdog-thread ticks into the countdown/health pair (the ticks
that fire concurrently while the loop is blocked in `check_balance`). -/
def applyTicks : Nat → Int × Bool → Int × Bool
  | 0, p => p
  | n + 1, p => applyTicks n ((decreaseTick p.1 p.2).timeout, (decreaseTick p.1 p.2).health)

/-- The inner `try` block of `main` (lines 283-294): run `find_none_value`
(whose fetch may raise), bind the result, sleep if there is no pending wallet,
otherwise mark health busy, run the lookup (with concurrent watchdog ticks),
restore health and write the result back. -/
def innerTry (env : IterEnv) (s : MState) : MState × List Ev × Except PyExc IterOutcome :=
  match env.fetchErr with
  | some m => (s, [Ev.select], Except.error (PyExc.exc m))
  | none =>
    match find_none_value s.store with
    | none =>
        ({ s with binding := Binding.boundNone }, [Ev.select, Ev.sleepEv],
         Except.ok IterOutcome.sleptNoWork)
    | some w =>
      let p := applyTicks env.ticksDuringLookup (s.wd, false)
      match env.lookup with
      | LookupResult.err d =>
          ({ s with binding := Binding.boundTo w, health := p.2, wd := p.1 },
           [Ev.select, Ev.busyOn, Ev.lookupEv], Except.error (PyExc.exc d))
      | LookupResult.ok v m =>
        match env.writeErr with
        | some wm =>
            ({ s with binding := Binding.boundTo w, health := true, wd := p.1 },
             [Ev.select, Ev.busyOn, Ev.lookupEv, Ev.busyOff, Ev.writeEv],
             Except.error (PyExc.exc wm))
        | none =>
            ({ s with
               binding := Binding.boundTo w
               health := true
               wd := p.1
               store := updateWallet s.store w.id v (GVal.str m) },
             [Ev.select, Ev.busyOn, Ev.lookupEv, Ev.busyOff, Ev.writeEv],
             Except.ok IterOutcome.completed)

/-- The inner `except Exception` handler (lines 295-298): set health back to
`True`, then `grist.update(none_value_wallet.id, {"Value": "--", "Comment":
f"Error: {e}"})` — which re-raises if `none_value_wallet` is unbound
(`NameError`), bound to `None` (`AttributeError`) or if the update itself
fails — then log the error. -/
def innerHandler (env : IterEnv) (s : MState) (e : PyExc) :
    MState × List Ev × Except PyExc IterOutcome :=
  match s.binding with
  | Binding.unbound =>
      ({ s with health := true }, [Ev.busyOff], Except.error PyExc.nameError)
  | Binding.boundNone =>
      ({ s with health := true }, [Ev.busyOff], Except.error PyExc.attrError)
  | Binding.boundTo w =>
    match env.errWriteErr with
    | some m =>
        ({ s with health := true }, [Ev.busyOff, Ev.errWriteEv],
         Except.error (PyExc.exc m))
    | none =>
        ({ s with
           health := true
           store := updateWallet s.store w.id (GVal.str ("--"))
             (GVal.str (("Error: ") ++ excDesc e)) },
         [Ev.busyOff, Ev.errWriteEv, Ev.logErr], Except.ok IterOutcome.failureHandled)

/-- The outer `try` block of one pass (lines 277-298): `watchdog.reset_timeout()`
first, then the settings resolution (`find_settings`/`find_chain`), then the
inner block with its handler.  Whatever the inner handler re-raises escapes to
the outer handler. -/
def outerTry (env : IterEnv) (s : MState) : MState × List Ev × Except PyExc IterOutcome :=
  match env.settingsErr with
  | some m =>
      ({ s with wd := resetValue }, [Ev.reset, Ev.settings], Except.error (PyExc.exc m))
  | none =>
    match innerTry env { s with wd := resetValue } with
    | (s1, evs1, Except.ok o) => (s1, Ev.reset :: Ev.settings :: evs1, Except.ok o)
    | (s1, evs1, Except.error e) =>
      match innerHandler env s1 e with
      | (s2, evs2, r2) => (s2, Ev.reset :: Ev.settings :: (evs1 ++ evs2), r2)

/-- One full pass of the `while True` loop, with the outer `except Exception`
handler (lines 299-302) as an `Except`-valued computation: the handler sets
health to `True`, logs and sleeps 10s, and never re-raises, so the whole body
is `Except.ok` for every environment. -/
def loopBodyE (env : IterEnv) (s : MState) :
    Except PyExc (MState × List Ev × IterOutcome) :=
  match outerTry env s with
  | (s1, evs, Except.ok o) => Except.ok (s1, evs, o)
  | (s1, evs, Except.error _) =>
      Except.ok ({ s1 with health := true }, evs ++ [Ev.busyOff, Ev.logErr, Ev.sleepEv],
        IterOutcome.sleptError)

/-- One full pass of the loop as a total function. -/
def runIteration (env : IterEnv) (s : MState) : MState × List Ev × IterOutcome :=
  match outerTry env s with
  | (s1, evs, Except.ok o) => (s1, evs, o)
  | (s1, evs, Except.error _) =>
      ({ s1 with health := true }, evs ++ [Ev.busyOff, Ev.logErr, Ev.sleepEv],
        IterOutcome.sleptError)

/-- Several consecutive passes of the loop. -/
def runLoop (envs : List IterEnv) (s : MState) : MState :=
  envs.foldl (fun st e => (runIteration e st).1) s

/-! ### Sample data used by witnesses and counterexamples -/

/-- A pending wallet: address set, value unset. -/
def wA : Wallet := ⟨1, GVal.str ("0xabc"), GVal.none, GVal.none⟩

/-- A wallet whose value has been persisted. -/
def wB : Wallet := ⟨2, GVal.str ("0xdef"), GVal.num 7, GVal.none⟩

/-- Initial loop state over a store holding only the pending wallet. -/
def sA : MState := ⟨[wA], true, 300, Binding.unbound⟩

/-- Initial loop state over a store holding only the persisted wallet. -/
def sB : MState := ⟨[wB], true, 300, Binding.unbound⟩

/-- A pass where everything succeeds and the lookup returns balance 5. -/
def envOkLookup : IterEnv := ⟨none, none, 0, LookupResult.ok (GVal.num 5) (""), none, none⟩

/-- A pass where everything succeeds but 25 watchdog ticks fire during the
lookup (250 seconds in flight). -/
def envTicks : IterEnv := ⟨none, none, 25, LookupResult.ok (GVal.num 5) (""), none, none⟩

/-- A pass where the selection's table fetch raises. -/
def envFetchFail : IterEnv :=
  ⟨none, some ("fetch failed"), 0, LookupResult.ok (GVal.num 0) (""), none, none⟩

/-- A pass where the remote lookup raises. -/
def envLookupFail : IterEnv := ⟨none, none, 0, LookupResult.err ("boom"), none, none⟩

/-- Invariant of the watchdog thread: while the thread is alive the expiry
action has never fired, and in any case it has fired at most once. -/
def wdOnce (s : WdThreadState) : Prop :=
  (s.alive = true → s.exitCalls = 0 ∧ s.notifyCalls = 0) ∧
    s.exitCalls ≤ 1 ∧ s.notifyCalls ≤ 1

/-- Ids of the rows of a store. -/
def storeIds (ws : List Wallet) : List Nat := ws.map Wallet.id

/-! ### Watchdog lemmas -/

/-- The countdown written by one tick is `max(0, t - 10)`, on both the expiry
and the non-expiry branch. -/
theorem decreaseTick_timeout (t : Int) (h : Bool) :
    (decreaseTick t h).timeout = max 0 (t - 10) := by
  simp only [decreaseTick, tickTimeoutVal]
  split <;> rfl

/-- The health flag after one tick: cleared when the new countdown is below
60, otherwise untouched. -/
theorem decreaseTick_health (t : Int) (h : Bool) :
    (decreaseTick t h).health = if max 0 (t - 10) < 60 then false else h := by
  simp only [decreaseTick, tickTimeoutVal]
  split <;> rfl

/-- A tick never increases the countdown and never drives it negative. -/
theorem timeoutStep_tick_le (t : Int) (h : 0 ≤ t) :
    timeoutStep t WdEvent.tick ≤ t ∧ 0 ≤ timeoutStep t WdEvent.tick := by
  simp only [timeoutStep, tickTimeoutVal]
  omega

/-- Over a tick-only event sequence the countdown is non-increasing and
bounded below by 0. -/
theorem timeoutRun_ticks_bounds (es : List WdEvent) : ∀ t : Int, 0 ≤ t →
    (∀ e ∈ es, e = WdEvent.tick) →
    timeoutRun t es ≤ t ∧ 0 ≤ timeoutRun t es := by
  induction es with
  | nil => intro t h1 _; exact ⟨le_refl t, h1⟩
  | cons e es ih =>
    intro t h1 h2
    have he : e = WdEvent.tick := h2 e (List.mem_cons_self e es)
    subst he
    have hstep := timeoutStep_tick_le t h1
    have hrun := ih (timeoutStep t WdEvent.tick) hstep.2
      (fun x hx => h2 x (List.mem_cons_of_mem _ hx))
    exact ⟨le_trans hrun.1 hstep.1, hrun.2⟩

/-- The invariant `0 <= remaining <= 300` survives any interleaving of ticks
and resets. -/
theorem timeoutRun_bounds (es : List WdEvent) : ∀ t : Int, 0 ≤ t → t ≤ 300 →
    0 ≤ timeoutRun t es ∧ timeoutRun t es ≤ 300 := by
  induction es with
  | nil => intro t h1 h2; exact ⟨h1, h2⟩
  | cons e es ih =>
    intro t h1 h2
    refine ih (timeoutStep t e) ?_ ?_ <;>
      cases e <;> simp only [timeoutStep, tickTimeoutVal, resetValue] <;> omega

/-- One watchdog event preserves the expiry-at-most-once invariant. -/
theorem wdStep_once (s : WdThreadState) (e : WdEvent) (h : wdOnce s) :
    wdOnce (wdStep s e) := by
  cases e with
  | reset => exact h
  | tick =>
    simp only [wdStep]
    cases ha : s.alive with
    | false => simpa [ha] using h
    | true =>
      have h0 := h.1 ha
      cases ho : (decreaseTick s.timeout s.health).exitCalled with
      | false =>
        simp only [ha, ho, if_true, if_false]
        exact ⟨fun _ => h0, h.2⟩
      | true =>
        simp only [ha, ho, if_true]
        refine ⟨fun hc => by simp at hc, ?_, ?_⟩ <;> simp [h0.1, h0.2]

/-- Any sequence of ticks and resets preserves the expiry-at-most-once
invariant. -/
theorem wdRun_once (es : List WdEvent) : ∀ s : WdThreadState, wdOnce s →
    wdOnce (wdRun s es) := by
  induction es with
  | nil => intro s h; exact h
  | cons e es ih => intro s h; exact ih (wdStep s e) (wdStep_once s e h)

/-- Claim C1: when the countdown first reaches 0 the expiry action fires —
exactly one notification attempt and exactly one `sys.exit(1)` — and it can
never fire again.  Under any event sequence from the initial state the
notification and the `sys.exit(1)` call each execute at most once; concretely,
after 32 consecutive ticks from 300 the countdown is 0, both have executed
exactly once, and the watchdog thread has ended.  The `sys.exit(1)`, however,
runs inside the daemon watchdog thread, where the `SystemExit` it raises only
ends that thread — the process itself keeps running, contrary to the claimed
whole-process termination. -/
theorem C1_expiry_thread :
    (∀ es : List WdEvent,
      (wdRun wdInit es).exitCalls ≤ 1 ∧ (wdRun wdInit es).notifyCalls ≤ 1) ∧
    wdRun wdInit (List.replicate 32 WdEvent.tick) =
      { timeout := 0, health := false, alive := false, notifyCalls := 1, exitCalls := 1 } := by
  constructor
  · intro es
    have h := wdRun_once es wdInit ⟨fun _ => ⟨rfl, rfl⟩, by decide, by decide⟩
    exact ⟨h.2.1, h.2.2⟩
  · decide

/-- Claim C2: a tick writes `max(0, remaining - 10)`; over tick-only sequences
the countdown is non-increasing and bounded below by 0; and under any
interleaving of ticks and resets (reset writes the ceiling 300) the invariant
`0 <= remaining <= 300` holds. -/
theorem C2_watchdog_decay :
    (∀ t h, (decreaseTick t h).timeout = max 0 (t - 10)) ∧
    (∀ t es, 0 ≤ t → (∀ e ∈ es, e = WdEvent.tick) →
      timeoutRun t es ≤ t ∧ 0 ≤ timeoutRun t es) ∧
    (∀ t es, 0 ≤ t → t ≤ 300 →
      0 ≤ timeoutRun t es ∧ timeoutRun t es ≤ 300) :=
  ⟨decreaseTick_timeout,
   fun t es h1 h2 => timeoutRun_ticks_bounds es t h1 h2,
   fun t es h1 h2 => timeoutRun_bounds es t h1 h2⟩

/-- Witness for C2: two ticks from remaining 290 stay within bounds and do
not increase the countdown, and the sequence tick, reset, tick from 300 keeps
the invariant. -/
theorem C2_watchdog_decay_witness :
    (timeoutRun 290 [WdEvent.tick, WdEvent.tick] ≤ 290 ∧
      0 ≤ timeoutRun 290 [WdEvent.tick, WdEvent.tick]) ∧
    (0 ≤ timeoutRun 300 [WdEvent.tick, WdEvent.reset, WdEvent.tick] ∧
      timeoutRun 300 [WdEvent.tick, WdEvent.reset, WdEvent.tick] ≤ 300) :=
  ⟨C2_watchdog_decay.2.1 290 [WdEvent.tick, WdEvent.tick] (by norm_num) (by decide),
   C2_watchdog_decay.2.2 300 [WdEvent.tick, WdEvent.reset, WdEvent.tick]
     (by norm_num) (by norm_num)⟩

/-! ### Health endpoint theorems -/

/-- Claim C9: `GET /health` answers 200 with `{"status": "healthy"}` when the
flag is healthy and 503 with `{"status": "unhealthy", "reason": <text>}` when
it is not, and a GET of any other path answers 404 (with an empty body — the
handler sends only headers). -/
theorem C9_health_endpoint :
    (do_GET healthPath true = ⟨200, ("\x7b\"status\": \"healthy\"\x7d")⟩) ∧
    (do_GET healthPath false =
      ⟨503, ("\x7b\"status\": \"unhealthy\", \"reason\": \"Request in progress taking too long\"\x7d")⟩) ∧
    (∀ p h, p ≠ healthPath → do_GET p h = ⟨404, ("")⟩) := by
  refine ⟨by decide, by decide, ?_⟩
  intro p h hp
  simp [do_GET, hp]

/-- Witness for C9 on the path `/nope`. -/
theorem C9_health_endpoint_witness : do_GET ("/nope") true = ⟨404, ("")⟩ :=
  C9_health_endpoint.2.2 ("/nope") true (by decide)

/-- Counterexample to claim C4: a tick from remaining 60 drops the countdown
to 50 (below the warning threshold) and does flip health to unhealthy, but the
reason the health endpoint then reports is the fixed text
`"Request in progress taking too long"`; the string `"watchdog-low"` occurs
nowhere in the response body. -/
theorem C4_reason_counterexample :
    (decreaseTick 60 true).timeout = 50 ∧
    (decreaseTick 60 true).health = false ∧
    do_GET healthPath ((decreaseTick 60 true).health) = ⟨503, unhealthyBody⟩ ∧
    ¬ (("watchdog-low").toList <:+: unhealthyBody.toList) :=
  ⟨by decide, by decide, by decide, by decide⟩

/-- Claim C4 as amended: whenever a tick makes the countdown fall below the
warning threshold of 60 the health flag is flipped to unhealthy, and the
reason the endpoint reports for any unhealthy state is the fixed text
`"Request in progress taking too long"` (not `"watchdog-low"`). -/
theorem C4_reason_amended :
    (∀ t h, (decreaseTick t h).timeout < 60 → (decreaseTick t h).health = false) ∧
    (∀ b : Bool, b = false → do_GET healthPath b =
      ⟨503, ("\x7b\"status\": \"unhealthy\", \"reason\": \"Request in progress taking too long\"\x7d")⟩) := by
  constructor
  · intro t h hlt
    rw [decreaseTick_timeout] at hlt
    rw [decreaseTick_health, if_pos hlt]
  · intro b hb
    subst hb
    decide

/-- Witness for the amended C4 at the tick from remaining 60. -/
theorem C4_reason_amended_witness :
    (decreaseTick 60 true).health = false ∧
    do_GET healthPath false =
      ⟨503, ("\x7b\"status\": \"unhealthy\", \"reason\": \"Request in progress taking too long\"\x7d")⟩ :=
  ⟨C4_reason_amended.1 60 true (by decide), C4_reason_amended.2 false rfl⟩

/-! ### Per-branch computations of one loop pass -/

/-- A pass whose settings resolution raises: caught by the outer handler,
store untouched, health set healthy, 10s sleep. -/
theorem runIteration_settingsFail (m : String) (fe : Option String) (tk : Nat)
    (lk : LookupResult) (we ee : Option String) (s : MState) :
    runIteration ⟨some m, fe, tk, lk, we, ee⟩ s =
      ({ s with wd := resetValue, health := true },
       [Ev.reset, Ev.settings, Ev.busyOff, Ev.logErr, Ev.sleepEv],
       IterOutcome.sleptError) := rfl

/-- A pass whose selection fetch raises while `none_value_wallet` was never
bound: the failure handler hits a `NameError`, the outer handler catches it,
store untouched. -/
theorem runIteration_fetchFail_unbound (m : String) (tk : Nat) (lk : LookupResult)
    (we ee : Option String) (st : List Wallet) (h : Bool) (wd : Int) :
    runIteration ⟨none, some m, tk, lk, we, ee⟩ ⟨st, h, wd, Binding.unbound⟩ =
      (⟨st, true, resetValue, Binding.unbound⟩,
       [Ev.reset, Ev.settings, Ev.select, Ev.busyOff, Ev.busyOff, Ev.logErr, Ev.sleepEv],
       IterOutcome.sleptError) := rfl

/-- A pass whose selection fetch raises while `none_value_wallet` was bound to
`None`: the failure handler hits an `AttributeError`, the outer handler
catches it, store untouched. -/
theorem runIteration_fetchFail_boundNone (m : String) (tk : Nat) (lk : LookupResult)
    (we ee : Option String) (st : List Wallet) (h : Bool) (wd : Int) :
    runIteration ⟨none, some m, tk, lk, we, ee⟩ ⟨st, h, wd, Binding.boundNone⟩ =
      (⟨st, true, resetValue, Binding.boundNone⟩,
       [Ev.reset, Ev.settings, Ev.select, Ev.busyOff, Ev.busyOff, Ev.logErr, Ev.sleepEv],
       IterOutcome.sleptError) := rfl

/-- A pass whose selection fetch raises while `none_value_wallet` still holds
the wallet selected in an earlier pass: the failure handler writes the sentinel
to that stale wallet's row and the pass ends as a handled failure. -/
theorem runIteration_fetchFail_bound (m : String) (tk : Nat) (lk : LookupResult)
    (we : Option String) (st : List Wallet) (h : Bool) (wd : Int) (w : Wallet) :
    runIteration ⟨none, some m, tk, lk, we, none⟩ ⟨st, h, wd, Binding.boundTo w⟩ =
      (⟨updateWallet st w.id (GVal.str ("--")) (GVal.str (("Error: ") ++ m)), true,
        resetValue, Binding.boundTo w⟩,
       [Ev.reset, Ev.settings, Ev.select, Ev.busyOff, Ev.errWriteEv, Ev.logErr],
       IterOutcome.failureHandled) := rfl

/-- Same as `runIteration_fetchFail_bound`, but the handler's own write also
raises: the outer handler catches, store untouched. -/
theorem runIteration_fetchFail_bound_errWriteFail (m m2 : String) (tk : Nat)
    (lk : LookupResult) (we : Option String) (st : List Wallet) (h : Bool)
    (wd : Int) (w : Wallet) :
    runIteration ⟨none, some m, tk, lk, we, some m2⟩ ⟨st, h, wd, Binding.boundTo w⟩ =
      (⟨st, true, resetValue, Binding.boundTo w⟩,
       [Ev.reset, Ev.settings, Ev.select, Ev.busyOff, Ev.errWriteEv, Ev.busyOff,
        Ev.logErr, Ev.sleepEv],
       IterOutcome.sleptError) := rfl

/-- A pass with no pending wallet: bind `None`, log, sleep 10s and continue —
no write, no error path. -/
theorem runIteration_noWork (tk : Nat) (lk : LookupResult) (we ee : Option String)
    (st : List Wallet) (h : Bool) (wd : Int) (bind : Binding)
    (hsel : find_none_value st = none) :
    runIteration ⟨none, none, tk, lk, we, ee⟩ ⟨st, h, wd, bind⟩ =
      (⟨st, h, resetValue, Binding.boundNone⟩,
       [Ev.reset, Ev.settings, Ev.select, Ev.sleepEv],
       IterOutcome.sleptNoWork) := by
  unfold runIteration outerTry innerTry
  dsimp only
  rw [hsel]

/-- A pass where the lookup succeeds and the write-back goes through: the
selected wallet's `Value`/`Comment` are persisted, health is restored. -/
theorem runIteration_success (tk : Nat) (v : GVal) (msg : String) (ee : Option String)
    (st : List Wallet) (h : Bool) (wd : Int) (bind : Binding) (w : Wallet)
    (hsel : find_none_value st = some w) :
    runIteration ⟨none, none, tk, LookupResult.ok v msg, none, ee⟩ ⟨st, h, wd, bind⟩ =
      (⟨updateWallet st w.id v (GVal.str msg), true,
        (applyTicks tk (resetValue, false)).1, Binding.boundTo w⟩,
       [Ev.reset, Ev.settings, Ev.select, Ev.busyOn, Ev.lookupEv, Ev.busyOff, Ev.writeEv],
       IterOutcome.completed) := by
  unfold runIteration outerTry innerTry
  dsimp only
  rw [hsel]

/-- A pass where the lookup raises and the failure write-back goes through:
the selected wallet gets the sentinel value and an `Error:` comment, and the
pass continues without sleeping. -/
theorem runIteration_lookupFail (tk : Nat) (d : String) (we : Option String)
    (st : List Wallet) (h : Bool) (wd : Int) (bind : Binding) (w : Wallet)
    (hsel : find_none_value st = some w) :
    runIteration ⟨none, none, tk, LookupResult.err d, we, none⟩ ⟨st, h, wd, bind⟩ =
      (⟨updateWallet st w.id (GVal.str ("--")) (GVal.str (("Error: ") ++ d)), true,
        (applyTicks tk (resetValue, false)).1, Binding.boundTo w⟩,
       [Ev.reset, Ev.settings, Ev.select, Ev.busyOn, Ev.lookupEv, Ev.busyOff,
        Ev.errWriteEv, Ev.logErr],
       IterOutcome.failureHandled) := by
  unfold runIteration outerTry innerTry innerHandler
  dsimp only
  rw [hsel]
  rfl

/-- A pass where the lookup raises and the failure write-back raises too: the
outer handler catches, the store is untouched, and the pass ends with a 10s
sleep. -/
theorem runIteration_lookupFail_errWriteFail (tk : Nat) (d m2 : String)
    (we : Option String) (st : List Wallet) (h : Bool) (wd : Int) (bind : Binding)
    (w : Wallet) (hsel : find_none_value st = some w) :
    runIteration ⟨none, none, tk, LookupResult.err d, we, some m2⟩ ⟨st, h, wd, bind⟩ =
      (⟨st, true, (applyTicks tk (resetValue, false)).1, Binding.boundTo w⟩,
       [Ev.reset, Ev.settings, Ev.select, Ev.busyOn, Ev.lookupEv, Ev.busyOff,
        Ev.errWriteEv, Ev.busyOff, Ev.logErr, Ev.sleepEv],
       IterOutcome.sleptError) := by
  unfold runIteration outerTry innerTry innerHandler
  dsimp only
  rw [hsel]
  rfl

/-- A pass where the lookup succeeds but the success write-back raises: the
failure handler then writes the sentinel to the same selected wallet. -/
theorem runIteration_writeFail (tk : Nat) (v : GVal) (msg wm : String)
    (st : List Wallet) (h : Bool) (wd : Int) (bind : Binding) (w : Wallet)
    (hsel : find_none_value st = some w) :
    runIteration ⟨none, none, tk, LookupResult.ok v msg, some wm, none⟩ ⟨st, h, wd, bind⟩ =
      (⟨updateWallet st w.id (GVal.str ("--")) (GVal.str (("Error: ") ++ wm)), true,
        (applyTicks tk (resetValue, false)).1, Binding.boundTo w⟩,
       [Ev.reset, Ev.settings, Ev.select, Ev.busyOn, Ev.lookupEv, Ev.busyOff, Ev.writeEv,
        Ev.busyOff, Ev.errWriteEv, Ev.logErr],
       IterOutcome.failureHandled) := by
  unfold runIteration outerTry innerTry innerHandler
  dsimp only
  rw [hsel]
  rfl

/-- A pass where the lookup succeeds but both write-backs raise: the outer
handler catches, the store is untouched. -/
theorem runIteration_writeFail_errWriteFail (tk : Nat) (v : GVal) (msg wm m2 : String)
    (st : List Wallet) (h : Bool) (wd : Int) (bind : Binding) (w : Wallet)
    (hsel : find_none_value st = some w) :
    runIteration ⟨none, none, tk, LookupResult.ok v msg, some wm, some m2⟩ ⟨st, h, wd, bind⟩ =
      (⟨st, true, (applyTicks tk (resetValue, false)).1, Binding.boundTo w⟩,
       [Ev.reset, Ev.settings, Ev.select, Ev.busyOn, Ev.lookupEv, Ev.busyOff, Ev.writeEv,
        Ev.busyOff, Ev.errWriteEv, Ev.busyOff, Ev.logErr, Ev.sleepEv],
       IterOutcome.sleptError) := by
  unfold runIteration outerTry innerTry innerHandler
  dsimp only
  rw [hsel]
  rfl

/-! ### Store and selection lemmas -/

/-- A row whose id differs from the updated id is untouched by `updateWallet`. -/
theorem mem_updateWallet_of_ne (ws : List Wallet) (rid : Nat) (v c : GVal) (w : Wallet)
    (hw : w ∈ ws) (h : w.id ≠ rid) : w ∈ updateWallet ws rid v c := by
  unfold updateWallet
  refine List.mem_map.mpr ⟨w, hw, ?_⟩
  rw [if_neg h]

/-- The function `updateWallet` keeps the list of row ids unchanged. -/
theorem updateWallet_map_id (ws : List Wallet) (rid : Nat) (v c : GVal) :
    (updateWallet ws rid v c).map Wallet.id = ws.map Wallet.id := by
  unfold updateWallet
  rw [List.map_map]
  apply List.map_congr_left
  intro w _
  by_cases h : w.id = rid <;> simp [h]

/-- The wallet returned by `find_none_value` is a member of the store. -/
theorem find_none_value_mem {ws : List Wallet} {w : Wallet}
    (h : find_none_value ws = some w) : w ∈ ws :=
  List.mem_of_find?_eq_some h

/-- The wallet returned by `find_none_value` has an unset `Value` and a set
`Address`. -/
theorem find_none_value_pending {ws : List Wallet} {w : Wallet}
    (h : find_none_value ws = some w) :
    isUnset w.Value = true ∧ isUnset w.Address = false := by
  have hp := List.find?_some h
  unfold pendingPred at hp
  simp only [Bool.and_eq_true, Bool.not_eq_true'] at hp
  exact hp

/-- The function `find_none_value` returns exactly the first wallet, in store order, whose
`Value` is unset and whose `Address` is set. -/
theorem find_none_value_first (ws : List Wallet) (w : Wallet) :
    find_none_value ws = some w ↔
      pendingPred w = true ∧
        ∃ l1 l2, ws = l1 ++ w :: l2 ∧ ∀ x ∈ l1, pendingPred x = false := by
  unfold find_none_value
  rw [List.find?_eq_some]
  simp only [Bool.not_eq_true']

/-! ### Structural lemmas about one loop pass -/

/-- The event trace of the outer try block always begins with the watchdog
reset followed by the settings-resolution attempt. -/
theorem outerTry_trace (env : IterEnv) (s : MState) :
    ∃ tl, (outerTry env s).2.1 = Ev.reset :: Ev.settings :: tl := by
  unfold outerTry
  cases hse : env.settingsErr with
  | some m => exact ⟨[], rfl⟩
  | none =>
    rcases hit : innerTry env { s with wd := resetValue } with ⟨s1, evs1, r⟩
    cases r with
    | ok o => exact ⟨evs1, rfl⟩
    | error e =>
      show ∃ tl, (match innerHandler env s1 e with
        | (s2, evs2, r2) => (s2, Ev.reset :: Ev.settings :: (evs1 ++ evs2), r2)).2.1
          = Ev.reset :: Ev.settings :: tl
      rcases innerHandler env s1 e with ⟨s2, evs2, r2⟩
      exact ⟨evs1 ++ evs2, rfl⟩

/-- Claim C3: with both `except Exception` handlers in place, no exception
escapes one pass of the loop body — the `Except`-valued body evaluates to
`Except.ok` of the pass result for every environment, including the passes in
which the failure handler's own write-back raises, and the loop body contains
no process-exit call of its own. -/
theorem C3_error_containment : ∀ (env : IterEnv) (s : MState),
    loopBodyE env s = Except.ok (runIteration env s) := by
  intro env s
  unfold loopBodyE runIteration
  rcases h : outerTry env s with ⟨s1, evs, r⟩
  cases r <;> rfl

/-- Claim C10: the event trace of every pass starts with the watchdog reset,
before the settings resolution, the selection, the lookup and every other
event of the pass, for every environment and state — in particular also when
no pending work exists or when any step raises. -/
theorem C10_reset_first (env : IterEnv) (s : MState) :
    ∃ tl, (runIteration env s).2.1 = Ev.reset :: Ev.settings :: tl := by
  obtain ⟨tl, h⟩ := outerTry_trace env s
  unfold runIteration
  rcases ho : outerTry env s with ⟨s1, evs, r⟩
  rw [ho] at h
  dsimp only at h
  cases r with
  | ok o => exact ⟨tl, h⟩
  | error e =>
    refine ⟨tl ++ [Ev.busyOff, Ev.logErr, Ev.sleepEv], ?_⟩
    dsimp only
    rw [h]
    rfl

/-- In every pass at most one row id is mutated: the resulting store is either
unchanged or an `updateWallet` of the incoming store at a single id. -/
theorem runIteration_store_cases (env : IterEnv) (s : MState) :
    (runIteration env s).1.store = s.store ∨
      ∃ rid v c, (runIteration env s).1.store = updateWallet s.store rid v c := by
  obtain ⟨se, fe, tk, lk, we, ee⟩ := env
  obtain ⟨st, h, wd, bind⟩ := s
  dsimp only
  cases se with
  | some m => rw [runIteration_settingsFail]; left; rfl
  | none =>
    cases fe with
    | some m =>
      cases bind with
      | unbound => rw [runIteration_fetchFail_unbound]; left; rfl
      | boundNone => rw [runIteration_fetchFail_boundNone]; left; rfl
      | boundTo w =>
        cases ee with
        | none => rw [runIteration_fetchFail_bound]; right; exact ⟨w.id, _, _, rfl⟩
        | some m2 => rw [runIteration_fetchFail_bound_errWriteFail]; left; rfl
    | none =>
      cases hsel : find_none_value st with
      | none => rw [runIteration_noWork tk lk we ee st h wd bind hsel]; left; rfl
      | some w =>
        cases lk with
        | ok v msg =>
          cases we with
          | none =>
            rw [runIteration_success tk v msg ee st h wd bind w hsel]
            right; exact ⟨w.id, v, GVal.str msg, rfl⟩
          | some wm =>
            cases ee with
            | none =>
              rw [runIteration_writeFail tk v msg wm st h wd bind w hsel]
              right; exact ⟨w.id, _, _, rfl⟩
            | some m2 =>
              rw [runIteration_writeFail_errWriteFail tk v msg wm m2 st h wd bind w hsel]
              left; rfl
        | err d =>
          cases ee with
          | none =>
            rw [runIteration_lookupFail tk d we st h wd bind w hsel]
            right; exact ⟨w.id, _, _, rfl⟩
          | some m2 =>
            rw [runIteration_lookupFail_errWriteFail tk d m2 we st h wd bind w hsel]
            left; rfl

/-- In every pass whose selection step runs without raising and selects a
wallet, any row with a different id is untouched. -/
theorem runIteration_mutates_selected_only (env : IterEnv) (s : MState)
    (w sel : Wallet) (hfe : env.fetchErr = none)
    (hsel : find_none_value s.store = some sel)
    (hw : w ∈ s.store) (hne : w.id ≠ sel.id) :
    w ∈ (runIteration env s).1.store := by
  obtain ⟨se, fe, tk, lk, we, ee⟩ := env
  obtain ⟨st, h, wd, bind⟩ := s
  dsimp only at hfe hsel hw ⊢
  subst hfe
  cases se with
  | some m => rw [runIteration_settingsFail]; exact hw
  | none =>
    cases lk with
    | ok v msg =>
      cases we with
      | none =>
        rw [runIteration_success tk v msg ee st h wd bind sel hsel]
        exact mem_updateWallet_of_ne st sel.id _ _ w hw hne
      | some wm =>
        cases ee with
        | none =>
          rw [runIteration_writeFail tk v msg wm st h wd bind sel hsel]
          exact mem_updateWallet_of_ne st sel.id _ _ w hw hne
        | some m2 =>
          rw [runIteration_writeFail_errWriteFail tk v msg wm m2 st h wd bind sel hsel]
          exact hw
    | err d =>
      cases ee with
      | none =>
        rw [runIteration_lookupFail tk d we st h wd bind sel hsel]
        exact mem_updateWallet_of_ne st sel.id _ _ w hw hne
      | some m2 =>
        rw [runIteration_lookupFail_errWriteFail tk d m2 we st h wd bind sel hsel]
        exact hw

/-- A pass that never reaches the failure handler with a stale binding — that
is, whose selection fetch succeeds whenever its settings resolution does —
leaves every row with a set `Value` untouched and keeps the id list of the
store unchanged. -/
theorem runIteration_preserves_set (env : IterEnv) (s : MState) (w : Wallet)
    (hnd : (s.store.map Wallet.id).Nodup) (hw : w ∈ s.store)
    (hset : isUnset w.Value = false)
    (hsf : env.settingsErr = none → env.fetchErr = none) :
    w ∈ (runIteration env s).1.store ∧
      (runIteration env s).1.store.map Wallet.id = s.store.map Wallet.id := by
  obtain ⟨se, fe, tk, lk, we, ee⟩ := env
  obtain ⟨st, h, wd, bind⟩ := s
  dsimp only at hnd hw hsf ⊢
  cases se with
  | some m => rw [runIteration_settingsFail]; exact ⟨hw, rfl⟩
  | none =>
    have hfe : fe = none := hsf rfl
    subst hfe
    cases hsel : find_none_value st with
    | none => rw [runIteration_noWork tk lk we ee st h wd bind hsel]; exact ⟨hw, rfl⟩
    | some sel =>
      have hpend := find_none_value_pending hsel
      have hselmem := find_none_value_mem hsel
      have hne : w.id ≠ sel.id := by
        intro hid
        have : w = sel := List.inj_on_of_nodup_map hnd hw hselmem hid
        rw [this, hpend.1] at hset
        exact Bool.noConfusion hset
      cases lk with
      | ok v msg =>
        cases we with
        | none =>
          rw [runIteration_success tk v msg ee st h wd bind sel hsel]
          exact ⟨mem_updateWallet_of_ne st sel.id _ _ w hw hne, updateWallet_map_id st sel.id _ _⟩
        | some wm =>
          cases ee with
          | none =>
            rw [runIteration_writeFail tk v msg wm st h wd bind sel hsel]
            exact ⟨mem_updateWallet_of_ne st sel.id _ _ w hw hne, updateWallet_map_id st sel.id _ _⟩
          | some m2 =>
            rw [runIteration_writeFail_errWriteFail tk v msg wm m2 st h wd bind sel hsel]
            exact ⟨hw, rfl⟩
      | err d =>
        cases ee with
        | none =>
          rw [runIteration_lookupFail tk d we st h wd bind sel hsel]
          exact ⟨mem_updateWallet_of_ne st sel.id _ _ w hw hne, updateWallet_map_id st sel.id _ _⟩
        | some m2 =>
          rw [runIteration_lookupFail_errWriteFail tk d m2 we st h wd bind sel hsel]
          exact ⟨hw, rfl⟩

/-- Over any number of passes in which selection never raises after a
successful settings resolution, a row whose `Value` is set stays in the store
unchanged. -/
theorem runLoop_preserves_set (envs : List IterEnv) : ∀ (s : MState) (w : Wallet),
    (s.store.map Wallet.id).Nodup → w ∈ s.store → isUnset w.Value = false →
    (∀ e ∈ envs, e.settingsErr = none → e.fetchErr = none) →
    w ∈ (runLoop envs s).store := by
  induction envs with
  | nil => intro s w _ hw _ _; exact hw
  | cons e es ih =>
    intro s w hnd hw hset hall
    have h1 := runIteration_preserves_set e s w hnd hw hset (hall e (List.mem_cons_self e es))
    have hrun : runLoop (e :: es) s = runLoop es (runIteration e s).1 := rfl
    rw [hrun]
    exact ih (runIteration e s).1 w (by rw [h1.2]; exact hnd) h1.1 hset
      (fun x hx => hall x (List.mem_cons_of_mem e hx))

/-! ### Claim theorems about the loop -/

/-- Counterexample to claim C5: in a pass whose lookup stays in flight long
enough for 25 watchdog ticks (so the countdown is down to 50, below the
warning threshold of 60, when the lookup completes), the loop still restores
health to healthy — the code runs an unconditional `set_health(True)` rather
than re-deriving health from the watchdog, so health does not stay unhealthy
as the claim requires. -/
theorem C5_restore_counterexample :
    (runIteration envTicks sA).1.wd = 50 ∧
    (runIteration envTicks sA).1.wd < 60 ∧
    (runIteration envTicks sA).1.health = true :=
  ⟨by decide, by decide, by decide⟩

/-- Claim C5 as amended: the loop marks health unhealthy before the lookup
(`busyOn` precedes `lookupEv` in the trace), and once a pass reaches the
lookup its final health is unconditionally healthy, on success, failure and
every exception path — regardless of the watchdog countdown; a countdown
below the warning threshold only makes the next watchdog tick flip health
back to unhealthy. -/
theorem C5_restore_amended (env : IterEnv) (s : MState) (w : Wallet)
    (hse : env.settingsErr = none) (hfe : env.fetchErr = none)
    (hsel : find_none_value s.store = some w) :
    (runIteration env s).1.health = true ∧
    ∃ l1 l2 l3, (runIteration env s).2.1 =
      l1 ++ Ev.busyOn :: l2 ++ Ev.lookupEv :: l3 := by
  obtain ⟨se, fe, tk, lk, we, ee⟩ := env
  obtain ⟨st, h, wd, bind⟩ := s
  dsimp only at hse hfe hsel ⊢
  subst hse
  subst hfe
  cases lk with
  | ok v msg =>
    cases we with
    | none =>
      rw [runIteration_success tk v msg ee st h wd bind w hsel]
      exact ⟨rfl, [Ev.reset, Ev.settings, Ev.select], [],
        [Ev.busyOff, Ev.writeEv], rfl⟩
    | some wm =>
      cases ee with
      | none =>
        rw [runIteration_writeFail tk v msg wm st h wd bind w hsel]
        exact ⟨rfl, [Ev.reset, Ev.settings, Ev.select], [],
          [Ev.busyOff, Ev.writeEv, Ev.busyOff, Ev.errWriteEv, Ev.logErr], rfl⟩
      | some m2 =>
        rw [runIteration_writeFail_errWriteFail tk v msg wm m2 st h wd bind w hsel]
        exact ⟨rfl, [Ev.reset, Ev.settings, Ev.select], [],
          [Ev.busyOff, Ev.writeEv, Ev.busyOff, Ev.errWriteEv, Ev.busyOff,
           Ev.logErr, Ev.sleepEv], rfl⟩
  | err d =>
    cases ee with
    | none =>
      rw [runIteration_lookupFail tk d we st h wd bind w hsel]
      exact ⟨rfl, [Ev.reset, Ev.settings, Ev.select], [],
        [Ev.busyOff, Ev.errWriteEv, Ev.logErr], rfl⟩
    | some m2 =>
      rw [runIteration_lookupFail_errWriteFail tk d m2 we st h wd bind w hsel]
      exact ⟨rfl, [Ev.reset, Ev.settings, Ev.select], [],
        [Ev.busyOff, Ev.errWriteEv, Ev.busyOff, Ev.logErr, Ev.sleepEv], rfl⟩

/-- Witness for the amended C5 on a concrete pass whose lookup raises. -/
theorem C5_restore_amended_witness :
    (runIteration ⟨none, none, 0, LookupResult.err ("boom"), none, none⟩
      ⟨[wA], true, 300, Binding.unbound⟩).1.health = true :=
  (C5_restore_amended ⟨none, none, 0, LookupResult.err ("boom"), none, none⟩
    ⟨[wA], true, 300, Binding.unbound⟩ wA rfl rfl (by decide)).1

/-- Counterexample to claim C6: the wallet with id 1 gets its `Value`
persisted (the success value 5) in a first pass, yet a second pass whose
selection fetch raises mutates that same wallet again — the failure handler
writes the sentinel through the stale `none_value_wallet` binding left over
from the first pass, with no external actor having cleared the value. -/
theorem C6_mutation_counterexample :
    (runIteration envOkLookup sA).1.store =
      [⟨1, GVal.str ("0xabc"), GVal.num 5, GVal.str ("")⟩] ∧
    isUnset (GVal.num 5) = false ∧
    (runIteration envFetchFail (runIteration envOkLookup sA).1).1.store =
      [⟨1, GVal.str ("0xabc"), GVal.str ("--"), GVal.str ("Error: fetch failed")⟩] :=
  ⟨by decide, by decide, by decide⟩

/-- Claim C6 as amended: per pass at most one row id is mutated; in a pass
whose selection runs and selects a wallet, only that wallet's row can change;
and over any sequence of passes in which the selection fetch never raises
(after a successful settings resolution), a row whose `Value` has been
persisted is never mutated again.  The exception the counterexample forces:
when the selection fetch itself raises, the failure handler writes the
sentinel to the row of the wallet selected in an earlier pass, mutating a row
whose value was already persisted. -/
theorem C6_mutation_amended :
    (∀ (env : IterEnv) (s : MState),
      (runIteration env s).1.store = s.store ∨
        ∃ rid v c, (runIteration env s).1.store = updateWallet s.store rid v c) ∧
    (∀ (env : IterEnv) (s : MState) (w sel : Wallet),
      env.fetchErr = none → find_none_value s.store = some sel →
      w ∈ s.store → w.id ≠ sel.id → w ∈ (runIteration env s).1.store) ∧
    (∀ (envs : List IterEnv) (s : MState) (w : Wallet),
      (s.store.map Wallet.id).Nodup → w ∈ s.store → isUnset w.Value = false →
      (∀ e ∈ envs, e.settingsErr = none → e.fetchErr = none) →
      w ∈ (runLoop envs s).store) :=
  ⟨runIteration_store_cases,
   fun env s w sel hfe hsel hw hne =>
     runIteration_mutates_selected_only env s w sel hfe hsel hw hne,
   fun envs s w hnd hw hset hall => runLoop_preserves_set envs s w hnd hw hset hall⟩

/-- Witness for the amended C6: over one well-behaved pass the persisted
wallet `wB` survives unchanged. -/
theorem C6_mutation_amended_witness :
    wB ∈ (runLoop [⟨none, none, 0, LookupResult.ok (GVal.num 5) (""), none, none⟩]
      ⟨[wB], true, 300, Binding.unbound⟩).store :=
  C6_mutation_amended.2.2 [⟨none, none, 0, LookupResult.ok (GVal.num 5) (""), none, none⟩]
    ⟨[wB], true, 300, Binding.unbound⟩ wB (by decide) (by decide) (by decide) (by decide)

/-- Claim C7: the selected item is the first one in store order with unset
`Value` and set `Address` (the predicate is exactly that conjunction), and a
pass that finds no such item performs no write, binds `None`, sleeps the fixed
10-second interval and ends the pass as `sleptNoWork` — not as an error. -/
theorem C7_selection :
    (∀ ws w, find_none_value ws = some w ↔
      pendingPred w = true ∧
        ∃ l1 l2, ws = l1 ++ w :: l2 ∧ ∀ x ∈ l1, pendingPred x = false) ∧
    (∀ w, pendingPred w = (isUnset w.Value && !isUnset w.Address)) ∧
    (∀ (tk : Nat) (lk : LookupResult) (we ee : Option String) (st : List Wallet)
      (h : Bool) (wd : Int) (bind : Binding), find_none_value st = none →
      runIteration ⟨none, none, tk, lk, we, ee⟩ ⟨st, h, wd, bind⟩ =
        (⟨st, h, resetValue, Binding.boundNone⟩,
         [Ev.reset, Ev.settings, Ev.select, Ev.sleepEv], IterOutcome.sleptNoWork)) :=
  ⟨find_none_value_first, fun _ => rfl,
   fun tk lk we ee st h wd bind hsel => runIteration_noWork tk lk we ee st h wd bind hsel⟩

/-- Witness for C7: a store whose only wallet already has a value yields a
no-work pass that writes nothing and sleeps. -/
theorem C7_selection_witness :
    runIteration ⟨none, none, 0, LookupResult.ok (GVal.num 5) (""), none, none⟩
      ⟨[wB], true, 300, Binding.unbound⟩ =
      (⟨[wB], true, resetValue, Binding.boundNone⟩,
       [Ev.reset, Ev.settings, Ev.select, Ev.sleepEv], IterOutcome.sleptNoWork) :=
  C7_selection.2.2 0 (LookupResult.ok (GVal.num 5) ("")) none none [wB] true 300
    Binding.unbound (by decide)

/-- Claim C8: a pass whose lookup raises persists the sentinel `"--"` and a
comment `"Error: " ++ description` to the selected wallet's row, logs the
error, and ends as a handled failure with no sleep anywhere in its trace; the
sentinel is a set value, so the next scan skips this row and selects the next
pending one. -/
theorem C8_failure_path (tk : Nat) (d : String) (we : Option String)
    (st : List Wallet) (h : Bool) (wd : Int) (bind : Binding) (sel : Wallet)
    (hsel : find_none_value st = some sel) :
    (runIteration ⟨none, none, tk, LookupResult.err d, we, none⟩ ⟨st, h, wd, bind⟩).1.store =
      updateWallet st sel.id (GVal.str ("--")) (GVal.str (("Error: ") ++ d)) ∧
    (runIteration ⟨none, none, tk, LookupResult.err d, we, none⟩ ⟨st, h, wd, bind⟩).2.2 =
      IterOutcome.failureHandled ∧
    Ev.sleepEv ∉
      (runIteration ⟨none, none, tk, LookupResult.err d, we, none⟩ ⟨st, h, wd, bind⟩).2.1 ∧
    Ev.logErr ∈
      (runIteration ⟨none, none, tk, LookupResult.err d, we, none⟩ ⟨st, h, wd, bind⟩).2.1 ∧
    (∃ rest, ("Error: ") ++ d = ("Error:") ++ rest) ∧
    isUnset (GVal.str ("--")) = false := by
  rw [runIteration_lookupFail tk d we st h wd bind sel hsel]
  refine ⟨rfl, rfl, by simp, by simp, ⟨(" ") ++ d, ?_⟩, by decide⟩
  rw [← String.append_assoc]
  rw [show ("Error:") ++ (" ") = ("Error: ") from by decide]

/-- Witness for C8 on a concrete store and failure. -/
theorem C8_failure_path_witness :
    (runIteration ⟨none, none, 0, LookupResult.err ("boom"), none, none⟩
      ⟨[wA], true, 300, Binding.unbound⟩).1.store =
      updateWallet [wA] wA.id (GVal.str ("--")) (GVal.str (("Error: ") ++ "boom")) ∧
    (runIteration ⟨none, none, 0, LookupResult.err ("boom"), none, none⟩
      ⟨[wA], true, 300, Binding.unbound⟩).2.2 = IterOutcome.failureHandled :=
  ⟨(C8_failure_path 0 ("boom") none [wA] true 300 Binding.unbound wA (by decide)).1,
   (C8_failure_path 0 ("boom") none [wA] true 300 Binding.unbound wA (by decide)).2.1⟩

end TokenChecker
